import Mathlib

/-!
Shallow embedding of the pug_cli library (src/lib.rs), a Rust façade over the
external `pug` template compiler.  Pure parts (the PugOptions builder, its
serialization into command-line tokens, the PugJsonObject payload conversion,
and the output classification in process_output) are translated directly.
The effectful OS collaborators (File::open, Command::output, Command::spawn,
write_all, wait_with_output, and the lossy UTF-8 decoder of the standard
library) are external to the repository and are modelled as an explicit
environment record of fallible functions; the invoker functions thread them
exactly as the Rust control flow does.
-/

/-- Data payload for the compiler's obj flag (enum PugJsonObject,
src/lib.rs lines 11 to 15).  The Json variant carries a serde_json::Value
in Rust; serde_json is external to the repository, so the variant is
modelled by the value's textual JSON rendering, which is all the
conversion consumes.  The Path variant is modelled by the path's
lossy string form. -/
inductive PugJsonObject where
  | Json (value : String)
  | Raw (value : String)
  | Path (value : String)
  deriving DecidableEq

/-- Conversion of a payload into its single argument token
(impl Into String for PugJsonObject, src/lib.rs lines 40 to 49).
The Json arm wraps the value's textual rendering in single quotes,
the Raw arm passes the string through, the Path arm takes the
lossy string form. -/
def pugJsonObjectToString : PugJsonObject → String
  | .Json value => "'" ++ value ++ "'"
  | .Raw value => value
  | .Path value => value

/-- The option set (struct PugOptions, src/lib.rs lines 51 to 61).
PathBuf-valued fields are modelled by their string form. -/
structure PugOptions where
  version : Bool
  object : Option PugJsonObject
  path : Option String
  out_dir : Option String
  no_debug : Bool
  client : Bool
  stdin : Bool
  pretty : Bool
  doctype : Option String
  deriving DecidableEq

/-- Constructor with every flag off (PugOptions::new, src/lib.rs lines 63 to 76). -/
def PugOptions.new : PugOptions where
  version := false
  object := none
  path := none
  out_dir := none
  no_debug := false
  client := false
  stdin := false
  pretty := false
  doctype := none

/-- Builder method setting the version flag (PugOptions::version,
src/lib.rs lines 78 to 81; primed because the Lean field shares the name). -/
def PugOptions.version' (o : PugOptions) : PugOptions :=
  { o with version := true }

/-- Builder method setting the payload (PugOptions::with_object,
src/lib.rs lines 83 to 86). -/
def PugOptions.with_object (o : PugOptions) (object : PugJsonObject) : PugOptions :=
  { o with object := some object }

/-- Builder method setting the source path (PugOptions::with_path,
src/lib.rs lines 88 to 91). -/
def PugOptions.with_path (o : PugOptions) (path : String) : PugOptions :=
  { o with path := some path }

/-- Builder method setting the output directory (PugOptions::out_dir,
src/lib.rs lines 93 to 96; primed because the Lean field shares the name). -/
def PugOptions.out_dir' (o : PugOptions) (out_dir : String) : PugOptions :=
  { o with out_dir := some out_dir }

/-- Builder method setting the no-debug flag (PugOptions::no_debug,
src/lib.rs lines 98 to 101; primed because the Lean field shares the name). -/
def PugOptions.no_debug' (o : PugOptions) : PugOptions :=
  { o with no_debug := true }

/-- Builder method setting the client flag (PugOptions::client,
src/lib.rs lines 103 to 106; primed because the Lean field shares the name). -/
def PugOptions.client' (o : PugOptions) : PugOptions :=
  { o with client := true }

/-- Builder method setting the read-stdin flag (PugOptions::stdin,
src/lib.rs lines 108 to 111; primed because the Lean field shares the name). -/
def PugOptions.stdin' (o : PugOptions) : PugOptions :=
  { o with stdin := true }

/-- Builder method setting the pretty flag (PugOptions::pretty,
src/lib.rs lines 113 to 116; primed because the Lean field shares the name). -/
def PugOptions.pretty' (o : PugOptions) : PugOptions :=
  { o with pretty := true }

/-- Builder method setting the doctype (PugOptions::doctype,
src/lib.rs lines 118 to 121; primed because the Lean field shares the name). -/
def PugOptions.doctype' (o : PugOptions) (dt : String) : PugOptions :=
  { o with doctype := some dt }

/-- Serialization of an option set into its command-line token sequence
(impl IntoIterator for PugOptions, src/lib.rs lines 124 to 169).  The Rust
code pushes tokens onto a growing Vec; each push becomes an append at the
right end of the accumulator, in the same straight-line order. -/
def PugOptions.into_iter (o : PugOptions) : List String :=
  let result : List String := []
  let result := if o.version then result ++ ["--verison"] else result
  let result :=
    match o.object with
    | some object => result ++ ["--obj", pugJsonObjectToString object]
    | none => result
  let result :=
    match o.path with
    | some path => result ++ ["--path", path]
    | none => result
  let result :=
    match o.out_dir with
    | some out_dir => result ++ ["--out", out_dir]
    | none => result
  let result := if o.pretty then result ++ ["--pretty"] else result
  let result := if o.no_debug then result ++ ["--no-debug"] else result
  let result := if o.client then result ++ ["--client"] else result
  let result :=
    match o.doctype with
    | some doctype => result ++ ["--doctype", doctype]
    | none => result
  result

/-- Specification-side serialization, written from the documented fixed
order of section 4.1 of the spec: version flag, then obj with the payload
token, then path, then out, then pretty, then no-debug, then client, then
doctype, each active option contributing its flag token followed by its
value token where applicable.  Compared against PugOptions.into_iter. -/
def tokens_spec_order (o : PugOptions) : List String :=
  (if o.version then ["--verison"] else [])
    ++ (match o.object with
        | some object => ["--obj", pugJsonObjectToString object]
        | none => [])
    ++ (match o.path with
        | some path => ["--path", path]
        | none => [])
    ++ (match o.out_dir with
        | some out_dir => ["--out", out_dir]
        | none => [])
    ++ (if o.pretty then ["--pretty"] else [])
    ++ (if o.no_debug then ["--no-debug"] else [])
    ++ (if o.client then ["--client"] else [])
    ++ (match o.doctype with
        | some doctype => ["--doctype", doctype]
        | none => [])

/-- Operating-system error (std::io::Error is external to the repository;
modelled as an opaque numeric error code). -/
structure IoError where
  code : Nat
  deriving DecidableEq

/-- Captured output of a completed child process (std::process::Output):
raw standard-output bytes, raw standard-error bytes, and the numeric exit
status.  Bytes are modelled as naturals. -/
structure Output where
  stdout : List Nat
  stderr : List Nat
  status : Int
  deriving DecidableEq

/-- Error taxonomy (enum CompileError, src/lib.rs lines 171 to 174).
PugError is the compiler-reported variant carrying the error-stream text. -/
inductive CompileError where
  | Io (err : IoError)
  | PugError (msg : String)
  deriving DecidableEq

/-- Output classification (fn process_output, src/lib.rs lines 195 to 208).
The lossy UTF-8 decoder String::from_utf8_lossy belongs to the Rust
standard library, not the repository, so it is passed in as the function
decode from bytes to text. -/
def process_output (decode : List Nat → String) :
    Except IoError Output → Except CompileError String
  | .ok output =>
      if output.stderr.length > 0 then
        .error (.PugError (decode output.stderr))
      else
        .ok (decode output.stdout)
  | .error err => .error (.Io err)

/-- Environment of external OS collaborators used by the invoker: the lossy
UTF-8 decoder, File::open (the handle itself is irrelevant to the result,
only success or failure), Command::output for the file-sourced mode, and
Command::spawn, write_all of the child's input pipe and
Child::wait_with_output for the string-sourced mode (the child is an
opaque handle). -/
structure Env where
  decode : List Nat → String
  openFile : String → Except IoError Unit
  output : List String → Except IoError Output
  spawn : List String → Except IoError Nat
  write_stdin : Nat → String → Except IoError Unit
  wait_with_output : Nat → Except IoError Output

/-- Option finalization performed by evaluate_with_options before the
process is created (src/lib.rs line 214): options.stdin().with_path(file). -/
def path_mode_options (file : String) (options : PugOptions) : PugOptions :=
  (options.stdin').with_path file

/-- Option finalization performed by evaluate_string_with_options before
the process is created (src/lib.rs line 234): options.stdin(). -/
def string_mode_options (options : PugOptions) : PugOptions :=
  options.stdin'

/-- File-sourced entry point (fn evaluate_with_options, src/lib.rs
lines 210 to 229): finalizes the options, opens the file at the source
path and binds it to the child's standard input (returning Io on failure),
passes the serialized tokens as arguments, runs the process and classifies
its output. -/
def evaluate_with_options (env : Env) (file : String) (options : PugOptions) :
    Except CompileError String :=
  let options := path_mode_options file options
  match options.path with
  | some path =>
      match env.openFile path with
      | .ok _ => process_output env.decode (env.output options.into_iter)
      | .error e => .error (.Io e)
  | none => process_output env.decode (env.output options.into_iter)

/-- String-sourced entry point (fn evaluate_string_with_options,
src/lib.rs lines 231 to 249): finalizes the options, spawns the process
with piped standard input and output (returning Io on spawn failure),
writes the whole template text to the input pipe (returning Io on write
failure), waits for the full output and classifies it. -/
def evaluate_string_with_options (env : Env) (s : String) (options : PugOptions) :
    Except CompileError String :=
  let options := string_mode_options options
  match env.spawn options.into_iter with
  | .error e => .error (.Io e)
  | .ok child =>
      match env.write_stdin child s with
      | .error e => .error (.Io e)
      | .ok _ => process_output env.decode (env.wait_with_output child)

/-- Default-options string-sourced entry point (fn evaluate_string,
src/lib.rs lines 251 to 254). -/
def evaluate_string (env : Env) (s : String) : Except CompileError String :=
  evaluate_string_with_options env s PugOptions.new

/-- Default-options file-sourced entry point (fn evaluate,
src/lib.rs lines 256 to 259). -/
def evaluate (env : Env) (file : String) : Except CompileError String :=
  evaluate_with_options env file PugOptions.new

/-- Helper refinement lemma shared by the serialization theorems: the
push-based token emission agrees with the fixed-order concatenation of
the specification. -/
theorem into_iter_eq_tokens_spec_order (o : PugOptions) :
    o.into_iter = tokens_spec_order o := by
  rcases o with ⟨v, ob, p, od, nd, c, st, pr, dt⟩
  cases v <;> cases ob <;> cases p <;> cases od <;> cases nd <;> cases c <;>
    cases pr <;> cases dt <;> rfl

/-- C1: for every invocation whose external process can be created and
waited on, the result is a CompilerReported (PugError) error carrying the
decoded error-stream text whenever the captured error stream is non-empty,
regardless of the numeric exit status; otherwise the result is success
carrying the decoded standard-output text; and whenever process creation
or waiting fails at the operating-system level, the result is an Io
error. -/
theorem process_output_classification (decode : List Nat → String)
    (o : Output) (e : IoError) (s : Int) :
    (o.stderr.length > 0 →
      process_output decode (.ok o) = .error (.PugError (decode o.stderr)))
    ∧ (¬ o.stderr.length > 0 →
      process_output decode (.ok o) = .ok (decode o.stdout))
    ∧ process_output decode (.error e) = .error (.Io e)
    ∧ process_output decode (.ok { o with status := s }) =
        process_output decode (.ok o) := by
  refine ⟨fun h => ?_, fun h => ?_, rfl, ?_⟩
  · simp [process_output, h]
  · simp [process_output, h]
  · simp [process_output]

/-- Witness for C1 at concrete inputs: a non-empty error stream yields a
PugError with the decoded error stream even at exit status 0, an empty
error stream yields success, and an OS failure yields Io. -/
theorem process_output_classification_witness :
    process_output (fun _ => "E") (Except.ok ⟨[104], [33], 0⟩) =
      Except.error (CompileError.PugError "E")
    ∧ process_output (fun _ => "E") (Except.ok ⟨[104], [], 0⟩) = Except.ok "E"
    ∧ process_output (fun _ => "E") (Except.error ⟨2⟩) =
      Except.error (CompileError.Io ⟨2⟩) :=
  ⟨(process_output_classification (fun _ => "E") ⟨[104], [33], 0⟩ ⟨2⟩ 0).1 (by decide),
   (process_output_classification (fun _ => "E") ⟨[104], [], 0⟩ ⟨2⟩ 0).2.1 (by decide),
   (process_output_classification (fun _ => "E") ⟨[104], [], 0⟩ ⟨2⟩ 0).2.2.1⟩

/-- C9: for every completed invocation in which waiting succeeds and the
captured error stream is empty, the call returns success with the decoded
standard output, even when the numeric exit status is non-zero: the exit
status is never inspected by the classification. -/
theorem process_output_success_ignores_exit_status (decode : List Nat → String)
    (out : List Nat) (s : Int) (_h : s ≠ 0) :
    process_output decode (.ok ⟨out, [], s⟩) = .ok (decode out) := by
  simp [process_output]

/-- Witness for C9 at a concrete non-zero exit status. -/
theorem process_output_success_ignores_exit_status_witness :
    (7 : Int) ≠ 0
    ∧ process_output (fun _ => "ok") (Except.ok ⟨[104], [], 7⟩) = Except.ok "ok" :=
  ⟨by decide,
   process_output_success_ignores_exit_status (fun _ => "ok") [104] 7 (by decide)⟩

/-- C5: for every structured-value (Json) payload, conversion into its
single string token is total (a total Lean function) and the resulting
token is the value's textual JSON rendering enclosed in single quotes, so
it begins and ends with a single-quote character. -/
theorem structured_payload_single_quoted (v : String) :
    pugJsonObjectToString (PugJsonObject.Json v) = "'" ++ v ++ "'"
    ∧ (pugJsonObjectToString (PugJsonObject.Json v)).data.head? = some '\''
    ∧ (pugJsonObjectToString (PugJsonObject.Json v)).data.getLast? = some '\'' := by
  have h : ("'" ++ v ++ "'").data = ('\'' :: v.data) ++ ['\''] := by
    simp [String.data_append]
  refine ⟨rfl, ?_, ?_⟩
  · show ("'" ++ v ++ "'").data.head? = some '\''
    rw [h]
    rfl
  · show ("'" ++ v ++ "'").data.getLast? = some '\''
    rw [h, List.getLast?_concat]

/-- C6: for every option set with the version option set, the first token
of the serialized sequence is the version flag, spelled with the
misspelling verison in the existing token emission, not version. -/
theorem version_flag_first_and_misspelled (o : PugOptions) (h : o.version = true) :
    o.into_iter.head? = some "--verison"
    ∧ o.into_iter.head? ≠ some "--version" := by
  rw [into_iter_eq_tokens_spec_order, tokens_spec_order, h]
  refine ⟨?_, ?_⟩ <;> simp

/-- Witness for C6 at a concrete option set with version set. -/
theorem version_flag_first_and_misspelled_witness :
    (PugOptions.new.version').version = true
    ∧ (PugOptions.new.version').into_iter.head? = some "--verison" :=
  ⟨rfl, (version_flag_first_and_misspelled PugOptions.new.version' rfl).1⟩

/-- C7: for every option set, including one with read-stdin set to true,
the serialized token sequence contains no token corresponding to the
read-stdin option: the emission is independent of the stdin field. -/
theorem into_iter_independent_of_stdin (o : PugOptions) (b : Bool) :
    ({ o with stdin := b } : PugOptions).into_iter = o.into_iter
    ∧ (o.stdin').into_iter = o.into_iter := by
  refine ⟨?_, ?_⟩ <;>
    simp [into_iter_eq_tokens_spec_order, tokens_spec_order, PugOptions.stdin']

/-- C2: serialization emits, for each active option only, its flag token
followed by its value tokens in the fixed order version, obj, path, out,
pretty, no-debug, client, doctype; in particular when a payload is set its
token immediately follows the obj flag token, and the obj pair appears
immediately before the path pair whenever a source path is also set. -/
theorem serialization_fixed_order (o : PugOptions) :
    o.into_iter = tokens_spec_order o
    ∧ (∀ ob, o.object = some ob →
        ∃ pre post, o.into_iter =
          pre ++ "--obj" :: pugJsonObjectToString ob :: post)
    ∧ (∀ ob p, o.object = some ob → o.path = some p →
        ∃ pre post, o.into_iter =
          pre ++ "--obj" :: pugJsonObjectToString ob :: "--path" :: p :: post) := by
  refine ⟨into_iter_eq_tokens_spec_order o, fun ob hob => ?_, fun ob p hob hp => ?_⟩
  · refine ⟨(if o.version then ["--verison"] else []),
      (match o.path with | some path => ["--path", path] | none => [])
        ++ (match o.out_dir with | some d => ["--out", d] | none => [])
        ++ (if o.pretty then ["--pretty"] else [])
        ++ (if o.no_debug then ["--no-debug"] else [])
        ++ (if o.client then ["--client"] else [])
        ++ (match o.doctype with | some dt => ["--doctype", dt] | none => []), ?_⟩
    rw [into_iter_eq_tokens_spec_order, tokens_spec_order, hob]
    simp
  · refine ⟨(if o.version then ["--verison"] else []),
      (match o.out_dir with | some d => ["--out", d] | none => [])
        ++ (if o.pretty then ["--pretty"] else [])
        ++ (if o.no_debug then ["--no-debug"] else [])
        ++ (if o.client then ["--client"] else [])
        ++ (match o.doctype with | some dt => ["--doctype", dt] | none => []), ?_⟩
    rw [into_iter_eq_tokens_spec_order, tokens_spec_order, hob, hp]
    simp

/-- Witness for C2 at an option set with a payload and a source path. -/
theorem serialization_fixed_order_witness :
    ∃ pre post,
      ((PugOptions.new.with_object (PugJsonObject.Raw "d")).with_path "p").into_iter =
        pre ++ "--obj" :: pugJsonObjectToString (PugJsonObject.Raw "d") ::
          "--path" :: "p" :: post :=
  (serialization_fixed_order
    ((PugOptions.new.with_object (PugJsonObject.Raw "d")).with_path "p")).2.2
    (PugJsonObject.Raw "d") "p" rfl rfl

/-- C8: every feature-setting method of the option set is total, returns
the configuration value for chaining, and modifies only the field it
names, leaving every other field unchanged: each method's result is the
input record updated at exactly its named field. -/
theorem builder_methods_frame (o : PugOptions) (ob : PugJsonObject) (p d dt : String) :
    o.version' = { o with version := true }
    ∧ o.with_object ob = { o with object := some ob }
    ∧ o.with_path p = { o with path := some p }
    ∧ o.out_dir' d = { o with out_dir := some d }
    ∧ o.no_debug' = { o with no_debug := true }
    ∧ o.client' = { o with client := true }
    ∧ o.stdin' = { o with stdin := true }
    ∧ o.pretty' = { o with pretty := true }
    ∧ o.doctype' dt = { o with doctype := some dt } :=
  ⟨rfl, rfl, rfl, rfl, rfl, rfl, rfl, rfl, rfl⟩

/-- C3: both public entry points force the read-stdin option to true on
the supplied option set before spawning the external process, for every
caller-supplied options value; the default-options entry points route
through the explicit-options ones with a fresh option set. -/
theorem entry_points_force_stdin (env : Env) (file s : String) (opts : PugOptions) :
    (path_mode_options file opts).stdin = true
    ∧ (string_mode_options opts).stdin = true
    ∧ evaluate env file = evaluate_with_options env file PugOptions.new
    ∧ evaluate_string env s = evaluate_string_with_options env s PugOptions.new :=
  ⟨rfl, rfl, rfl, rfl⟩

/-- C4: for every path whose file cannot be opened, the path-based entry
points evaluate and evaluate_with_options return an Io error and never a
CompilerReported (PugError) error. -/
theorem open_failure_yields_io (env : Env) (file : String) (opts : PugOptions)
    (e : IoError) (h : env.openFile file = .error e) :
    evaluate_with_options env file opts = .error (.Io e)
    ∧ evaluate env file = .error (.Io e)
    ∧ (∀ msg, evaluate_with_options env file opts ≠ .error (.PugError msg))
    ∧ (∀ msg, evaluate env file ≠ .error (.PugError msg)) := by
  have key : ∀ o : PugOptions, evaluate_with_options env file o = .error (.Io e) := by
    intro o
    simp [evaluate_with_options, path_mode_options, PugOptions.with_path,
      PugOptions.stdin', h]
  refine ⟨key opts, key PugOptions.new, fun msg hmsg => ?_, fun msg hmsg => ?_⟩
  · rw [key opts] at hmsg
    simp at hmsg
  · rw [show evaluate env file = evaluate_with_options env file PugOptions.new from rfl,
      key PugOptions.new] at hmsg
    simp at hmsg

/-- Witness for C4: a concrete environment whose file open fails with
error code 2 makes evaluate_with_options return that Io error. -/
theorem open_failure_yields_io_witness :
    evaluate_with_options
      ⟨fun _ => "", fun _ => Except.error ⟨2⟩, fun _ => Except.ok ⟨[], [], 0⟩,
       fun _ => Except.ok 0, fun _ _ => Except.ok (), fun _ => Except.ok ⟨[], [], 0⟩⟩
      "missing.pug" PugOptions.new = Except.error (CompileError.Io ⟨2⟩) :=
  (open_failure_yields_io
    ⟨fun _ => "", fun _ => Except.error ⟨2⟩, fun _ => Except.ok ⟨[], [], 0⟩,
     fun _ => Except.ok 0, fun _ _ => Except.ok (), fun _ => Except.ok ⟨[], [], 0⟩⟩
    "missing.pug" PugOptions.new ⟨2⟩ rfl).1

/-- C10: evaluate_with_options overwrites the source-path field with its
file argument before serialization: the finalized options carry that file
as the source path, a path previously set by the caller is erased (the
finalization and the whole call are unchanged by it), and the emitted
token sequence contains the path flag immediately followed by the file
argument's string form. -/
theorem with_path_overwrites_source_path (env : Env) (file p : String)
    (opts : PugOptions) :
    (path_mode_options file opts).path = some file
    ∧ path_mode_options file (opts.with_path p) = path_mode_options file opts
    ∧ (∃ pre post,
        (path_mode_options file opts).into_iter = pre ++ "--path" :: file :: post)
    ∧ evaluate_with_options env file (opts.with_path p) =
        evaluate_with_options env file opts := by
  refine ⟨rfl, rfl, ?_, rfl⟩
  refine ⟨(if opts.version then ["--verison"] else [])
      ++ (match opts.object with
          | some ob => ["--obj", pugJsonObjectToString ob]
          | none => []),
    (match opts.out_dir with | some d => ["--out", d] | none => [])
      ++ (if opts.pretty then ["--pretty"] else [])
      ++ (if opts.no_debug then ["--no-debug"] else [])
      ++ (if opts.client then ["--client"] else [])
      ++ (match opts.doctype with | some dt => ["--doctype", dt] | none => []), ?_⟩
  rw [into_iter_eq_tokens_spec_order]
  simp [tokens_spec_order, path_mode_options, PugOptions.stdin', PugOptions.with_path]
